import Mathlib

/-!
# Verification of the OpenPlantbook reference-library integration

A shallow embedding, in Lean 4, of the logic of the
`custom_components/openplantbook_ref` integration (config flow, API auth
wrapper, sensor materialization, device-id generation), together with
theorems settling the specification's claims about it.

Python strings are modelled as lists of Unicode codepoints (`List Nat`);
the case/space predicates are the ASCII fragment of Python's `str` methods.
Python `dict`s are modelled as association lists (first match wins for
lookup) or as records of `Option` fields where the key set is fixed;
`Option.none` in an outer layer models an absent key, an inner `Option`
models Python `None`.
-/

namespace OpenPlantbookRef

/-! ## Python string model (ASCII fragment) -/

/-- Codepoints of a Lean string literal; used to write Python string
constants from the source. -/
def strCodes (s : String) : List Nat :=
  s.data.map Char.toNat

/-- Python `str.isspace` on ASCII codepoints (tab, LF, VT, FF, CR, space). -/
def pyIsSpace (c : Nat) : Bool :=
  decide (c = 9 ∨ c = 10 ∨ c = 11 ∨ c = 12 ∨ c = 13 ∨ c = 32)

/-- A cased (ASCII-letter) codepoint, as used by Python's `str.title`. -/
def pyIsCased (c : Nat) : Bool :=
  decide ((65 ≤ c ∧ c ≤ 90) ∨ (97 ≤ c ∧ c ≤ 122))

/-- ASCII uppercase mapping of a codepoint. -/
def pyToUpper (c : Nat) : Nat :=
  if 97 ≤ c ∧ c ≤ 122 then c - 32 else c

/-- ASCII lowercase mapping of a codepoint. -/
def pyToLower (c : Nat) : Nat :=
  if 65 ≤ c ∧ c ≤ 90 then c + 32 else c

/-- An ASCII alphanumeric codepoint. -/
def pyIsAlnum (c : Nat) : Bool :=
  decide ((48 ≤ c ∧ c ≤ 57) ∨ (65 ≤ c ∧ c ≤ 90) ∨ (97 ≤ c ∧ c ≤ 122))

/-- Drop leading whitespace (`str.lstrip`). -/
def trimL (s : List Nat) : List Nat :=
  s.dropWhile pyIsSpace

/-- Drop trailing whitespace (`str.rstrip`). -/
def trimR (s : List Nat) : List Nat :=
  (s.reverse.dropWhile pyIsSpace).reverse

/-- Python `str.strip`: drop leading and trailing whitespace. -/
def pyStrip (s : List Nat) : List Nat :=
  trimR (trimL s)

/-- One step of Python `str.title`: `prev` records whether the previous
character was cased. -/
def titleAux (prev : Bool) : List Nat → List Nat
  | [] => []
  | c :: cs =>
    if pyIsCased c then
      (if prev then pyToLower c else pyToUpper c) :: titleAux true cs
    else
      c :: titleAux false cs

/-- Python `str.title` (ASCII fragment). -/
def pyTitle (s : List Nat) : List Nat :=
  titleAux false s

/-- Python truthiness of a string: nonempty. -/
def strTruthy (s : List Nat) : Bool :=
  !s.isEmpty

/-- Substring test `needle in hay` of Python strings (prefix at some
position, with the empty needle contained everywhere). -/
def strContainsSub (hay needle : List Nat) : Bool :=
  match hay with
  | [] => needle.isEmpty
  | _ :: t => needle.isPrefixOf hay || strContainsSub t needle

/-! ## Case Normalizer (`config_flow._to_proper_case`) -/

/-- `config_flow._to_proper_case`: return blank/whitespace-only input
unchanged, otherwise strip and title-case. -/
def toProperCase (text : List Nat) : List Nat :=
  if text.isEmpty || (pyStrip text).isEmpty then text
  else pyTitle (pyStrip text)

/-! ## Device ID Generator (`const.generate_device_id`) -/

/-- Replace every run of non-alphanumeric codepoints by a single `_` (95);
`prev` records whether the previous output codepoint was the underscore of
a still-open non-alphanumeric run. -/
def collapseAux (prev : Bool) : List Nat → List Nat
  | [] => []
  | c :: cs =>
    if pyIsAlnum c then c :: collapseAux false cs
    else if prev then collapseAux true cs
    else 95 :: collapseAux true cs

/-- Replace every run of non-alphanumeric codepoints by a single `_` (95). -/
def collapseRuns (s : List Nat) : List Nat :=
  collapseAux false s

/-- Trim leading and trailing underscores. -/
def trimUnderscore (s : List Nat) : List Nat :=
  ((s.dropWhile (fun c => c == 95)).reverse.dropWhile (fun c => c == 95)).reverse

/-- Modelled from the spec: `homeassistant.util.slugify` is an external
dependency whose code is not part of this repository; the spec describes it
as "lowercase, transliterate/strip diacritics, replace any run of
non-alphanumeric characters with a single `_`, trim leading/trailing `_`"
(the ASCII fragment is modelled; transliteration of diacritics is the
identity on ASCII input). -/
def slugify (s : List Nat) : List Nat :=
  trimUnderscore (collapseRuns (s.map pyToLower))

/-- A Python dict whose values are strings, as passed to
`generate_device_id`; an absent key is simply an absent entry. -/
def StrDict : Type := List (String × List Nat)

/-- `dict.get(k)` on a string-valued dict (first match wins). -/
def sGet (d : StrDict) (k : String) : Option (List Nat) :=
  match d with
  | [] => none
  | (k', v) :: rest => if k' = k then some v else sGet rest k

/-- `const.generate_device_id`: slugify `plant_id` when truthy, else
`scientific_name` when truthy, else `name` (defaulting to
`"unnamed_plant"` when the key is absent). -/
def generate_device_id (plant_data : StrDict) : List Nat :=
  match sGet plant_data "plant_id" with
  | some pid =>
    if strTruthy pid then slugify pid else generateFromScientific plant_data
  | none => generateFromScientific plant_data
where
  generateFromScientific (plant_data : StrDict) : List Nat :=
    match sGet plant_data "scientific_name" with
    | some sci =>
      if strTruthy sci then slugify sci else generateFromName plant_data
    | none => generateFromName plant_data
  generateFromName (plant_data : StrDict) : List Nat :=
    slugify ((sGet plant_data "name").getD (strCodes "unnamed_plant"))

/-! ## Plant configuration data (`config_flow._extract_plant_data`) -/

/-- The plant data extracted from the wizard's configuration form
(`_extract_plant_data`): three names, a category list, and ten optional
numeric range values (a numeric selector left blank is `None`). -/
structure PlantData where
  friendly_name : List Nat
  scientific_name : List Nat
  common_name : List Nat
  categories : List (List Nat)
  min_light : Option Int
  max_light : Option Int
  min_temp : Option Int
  max_temp : Option Int
  min_humidity : Option Int
  max_humidity : Option Int
  min_moisture : Option Int
  max_moisture : Option Int
  min_soil_ec : Option Int
  max_soil_ec : Option Int
deriving DecidableEq

/-- The raw user input feeding `_extract_plant_data` (values of the form
sections, already flattened to their fields). -/
structure RawInput where
  friendly_name : List Nat
  scientific_name : List Nat
  common_name : List Nat
  categories : List (List Nat)
  min_light : Option Int
  max_light : Option Int
  min_temp : Option Int
  max_temp : Option Int
  min_humidity : Option Int
  max_humidity : Option Int
  min_moisture : Option Int
  max_moisture : Option Int
  min_soil_ec : Option Int
  max_soil_ec : Option Int

/-- `config_flow._extract_plant_data`: proper-case the names and each
category, pass the numeric values through. -/
def extractPlantData (r : RawInput) : PlantData where
  friendly_name := toProperCase r.friendly_name
  scientific_name := toProperCase r.scientific_name
  common_name := toProperCase r.common_name
  categories := r.categories.map toProperCase
  min_light := r.min_light
  max_light := r.max_light
  min_temp := r.min_temp
  max_temp := r.max_temp
  min_humidity := r.min_humidity
  max_humidity := r.max_humidity
  min_moisture := r.min_moisture
  max_moisture := r.max_moisture
  min_soil_ec := r.min_soil_ec
  max_soil_ec := r.max_soil_ec

/-! ## Validation (`_validate_required_fields`, `_validate_min_max_pairs`)

Both validators return at most one error entry (the `elif` chain and the
`break`-ing loop each set a single key), so the Python error dict is
modelled as `Option (String × String)` (section key, error key). -/

/-- `config_flow._validate_required_fields`: the `elif` chain over the
fourteen required fields. -/
def validateRequiredFields (p : PlantData) : Option (String × String) :=
  if p.friendly_name.isEmpty then some ("names_section", "friendly_name_required")
  else if p.scientific_name.isEmpty then some ("names_section", "scientific_name_required")
  else if p.common_name.isEmpty then some ("names_section", "common_name_required")
  else if p.categories.isEmpty then some ("categories_section", "categories_required")
  else if p.min_light.isNone then some ("light_values_section", "min_light_required")
  else if p.max_light.isNone then some ("light_values_section", "max_light_required")
  else if p.min_temp.isNone then some ("temperature_values_section", "min_temp_required")
  else if p.max_temp.isNone then some ("temperature_values_section", "max_temp_required")
  else if p.min_humidity.isNone then some ("humidity_values_section", "min_humidity_required")
  else if p.max_humidity.isNone then some ("humidity_values_section", "max_humidity_required")
  else if p.min_moisture.isNone then some ("moisture_values_section", "min_moisture_required")
  else if p.max_moisture.isNone then some ("moisture_values_section", "max_moisture_required")
  else if p.min_soil_ec.isNone then some ("soil_ec_values_section", "min_soil_ec_required")
  else if p.max_soil_ec.isNone then some ("soil_ec_values_section", "max_soil_ec_required")
  else none

/-- The `validation_pairs` list of `_validate_min_max_pairs`:
(min value, max value, field type, section key) per dimension. -/
def validationPairs (p : PlantData) : List (Option Int × Option Int × String × String) :=
  [ (p.min_light, p.max_light, "light", "light_values_section"),
    (p.min_temp, p.max_temp, "temperature", "temperature_values_section"),
    (p.min_humidity, p.max_humidity, "humidity", "humidity_values_section"),
    (p.min_moisture, p.max_moisture, "moisture", "moisture_values_section"),
    (p.min_soil_ec, p.max_soil_ec, "soil_ec", "soil_ec_values_section") ]

/-- The `for` loop of `_validate_min_max_pairs`: a pair with both values
present and `min > max` (resp. `min == max`) sets the error and `break`s;
everything else continues. -/
def checkPairsLoop : List (Option Int × Option Int × String × String) → Option (String × String)
  | [] => none
  | (mn, mx, ft, sk) :: rest =>
    match mn, mx with
    | some mnv, some mxv =>
      if mxv < mnv then some (sk, "min_greater_than_max_" ++ ft)
      else if mnv = mxv then some (sk, "min_equals_max_" ++ ft)
      else checkPairsLoop rest
    | _, _ => checkPairsLoop rest

/-- `config_flow._validate_min_max_pairs`. -/
def validateMinMaxPairs (p : PlantData) : Option (String × String) :=
  checkPairsLoop (validationPairs p)

/-- `config_flow._validate_plant_configuration`: required fields first,
min/max pairs only if no error so far. -/
def validatePlantConfiguration (p : PlantData) : Option (String × String) :=
  match validateRequiredFields p with
  | some e => some e
  | none => validateMinMaxPairs p

/-! ## Specification-side validation order

The definitions below follow the spec's words for the claim about
validation order ("first failure wins, fields checked in a fixed order";
pairs checked only once every field is present), to be compared with the
embedded code above. -/

/-- Spec-side: the fourteen required-field checks, as an ordered list of
potential failures (a `none` entry is a passed check). -/
def requiredChecks (p : PlantData) : List (Option (String × String)) :=
  [ if p.friendly_name.isEmpty then some ("names_section", "friendly_name_required") else none,
    if p.scientific_name.isEmpty then some ("names_section", "scientific_name_required") else none,
    if p.common_name.isEmpty then some ("names_section", "common_name_required") else none,
    if p.categories.isEmpty then some ("categories_section", "categories_required") else none,
    if p.min_light.isNone then some ("light_values_section", "min_light_required") else none,
    if p.max_light.isNone then some ("light_values_section", "max_light_required") else none,
    if p.min_temp.isNone then some ("temperature_values_section", "min_temp_required") else none,
    if p.max_temp.isNone then some ("temperature_values_section", "max_temp_required") else none,
    if p.min_humidity.isNone then some ("humidity_values_section", "min_humidity_required") else none,
    if p.max_humidity.isNone then some ("humidity_values_section", "max_humidity_required") else none,
    if p.min_moisture.isNone then some ("moisture_values_section", "min_moisture_required") else none,
    if p.max_moisture.isNone then some ("moisture_values_section", "max_moisture_required") else none,
    if p.min_soil_ec.isNone then some ("soil_ec_values_section", "min_soil_ec_required") else none,
    if p.max_soil_ec.isNone then some ("soil_ec_values_section", "max_soil_ec_required") else none ]

/-- Spec-side: all fourteen required fields are present. -/
def allFieldsPresent (p : PlantData) : Bool :=
  !p.friendly_name.isEmpty && !p.scientific_name.isEmpty && !p.common_name.isEmpty
    && !p.categories.isEmpty
    && !p.min_light.isNone && !p.max_light.isNone
    && !p.min_temp.isNone && !p.max_temp.isNone
    && !p.min_humidity.isNone && !p.max_humidity.isNone
    && !p.min_moisture.isNone && !p.max_moisture.isNone
    && !p.min_soil_ec.isNone && !p.max_soil_ec.isNone

/-- Spec-side check of one min/max pair: `min > max` yields the
"min greater than max" error for that dimension, `min == max` the distinct
"min equals max" error. -/
def specPairCheck (mn mx : Option Int) (ft sk : String) : Option (String × String) :=
  match mn, mx with
  | some mnv, some mxv =>
    if mxv < mnv then some (sk, "min_greater_than_max_" ++ ft)
    else if mnv = mxv then some (sk, "min_equals_max_" ++ ft)
    else none
  | _, _ => none

/-- Spec-side: the five pairwise checks in the fixed dimension order. -/
def pairFailures (p : PlantData) : List (Option (String × String)) :=
  [ specPairCheck p.min_light p.max_light "light" "light_values_section",
    specPairCheck p.min_temp p.max_temp "temperature" "temperature_values_section",
    specPairCheck p.min_humidity p.max_humidity "humidity" "humidity_values_section",
    specPairCheck p.min_moisture p.max_moisture "moisture" "moisture_values_section",
    specPairCheck p.min_soil_ec p.max_soil_ec "soil_ec" "soil_ec_values_section" ]

/-- Spec-side validation: the first failure of the ordered checklist —
the fourteen required-field checks, followed by the five pairwise checks,
the latter performed only when all fields are present. -/
def specValidate (p : PlantData) : Option (String × String) :=
  (requiredChecks p ++ if allFieldsPresent p then pairFailures p else []).findSome? id

/-! ## Python dict values -/

/-- A Python value stored in a plant record dict: a string, a number, or a
list of strings. -/
inductive PValue where
  | pstr (s : List Nat)
  | pnum (n : Int)
  | plist (l : List (List Nat))
deriving DecidableEq

/-- A Python dict with string keys and possibly-`None` values;
`Option.none` as a value models Python `None`, an absent pair models an
absent key. -/
def PyDict : Type := List (String × Option PValue)

instance : DecidableEq PyDict := by
  unfold PyDict
  infer_instance

/-- Raw lookup: `some v` when the key is present with value `v`
(first match wins), `none` when the key is absent. -/
def dGet (d : PyDict) (k : String) : Option (Option PValue) :=
  match d with
  | [] => none
  | (k', v) :: rest => if k' = k then some v else dGet rest k

/-- `dict.get(k)`: absent keys read as `None`. -/
def dGetD (d : PyDict) (k : String) : Option PValue :=
  (dGet d k).getD none

/-- Python truthiness of a possibly-`None` dict value. -/
def pTruthy : Option PValue → Bool
  | none => false
  | some (.pstr s) => !s.isEmpty
  | some (.pnum n) => decide (n ≠ 0)
  | some (.plist l) => !l.isEmpty

/-- A nonempty string becomes itself, an empty one Python `None`
(the `x if x else None` idiom). -/
def strOrNone (s : List Nat) : Option PValue :=
  if s.isEmpty then none else some (.pstr s)

/-- A nonempty list becomes itself, an empty one Python `None`. -/
def listOrNone (l : List (List Nat)) : Option PValue :=
  if l.isEmpty then none else some (.plist l)

/-! ## Entry creation (`config_flow._create_plant_entry`) -/

/-- The subentry produced by `async_create_entry` in
`_create_plant_entry`: title, device id, and the persisted data dict
(whose first entry is `device_id`). `plant_book_data` and
`entity_picture` handling, which need a selected search result and the
image fetcher, are not part of the persisted fields modelled here. -/
structure CreatedEntry where
  title : List Nat
  device_id : List Nat
  data : PyDict

/-- The ten `min_*`/`max_*` entries of a plant-data dict, in source order. -/
def rangeEntries (p : PlantData) : PyDict :=
  [ ("min_light", p.min_light.map .pnum), ("max_light", p.max_light.map .pnum),
    ("min_temp", p.min_temp.map .pnum), ("max_temp", p.max_temp.map .pnum),
    ("min_humidity", p.min_humidity.map .pnum), ("max_humidity", p.max_humidity.map .pnum),
    ("min_moisture", p.min_moisture.map .pnum), ("max_moisture", p.max_moisture.map .pnum),
    ("min_soil_ec", p.min_soil_ec.map .pnum), ("max_soil_ec", p.max_soil_ec.map .pnum) ]

/-- `config_flow._create_plant_entry` (with validation already passed):
determine `plant_id` and the device name, generate the device id, and
assemble the persisted device data. -/
def createPlantEntry (p : PlantData) (selected : Option PyDict) : CreatedEntry :=
  let plant_id : Option PValue :=
    match selected with
    | some sel => dGetD sel "pid"
    | none => some (.pstr p.scientific_name)
  let device_name : List Nat :=
    if p.friendly_name.isEmpty then p.scientific_name else p.friendly_name
  let deviceDataForId : StrDict :=
    (match plant_id with | some (.pstr s) => [("plant_id", s)] | _ => [])
      ++ [("scientific_name", p.scientific_name), ("name", device_name)]
  let device_id := generate_device_id deviceDataForId
  { title := p.scientific_name
    device_id := device_id
    data :=
      ("device_id", some (.pstr device_id)) ::
      ("name", some (.pstr device_name)) ::
      ("plant_id", plant_id) ::
      ("scientific_name", some (.pstr p.scientific_name)) ::
      ("common_name", strOrNone p.common_name) ::
      ("categories", listOrNone p.categories) ::
      ("friendly_name", strOrNone p.friendly_name) ::
      rangeEntries p }

/-! ## Reconfigure sub-flow (`_extract_section_data`,
`_validate_required_plant_fields`, `_validate_plant_min_max_pairs`,
`_create_updated_plant_data`, `_handle_configure_plant_options_input`) -/

/-- The section data extracted by `_extract_section_data` (names and
categories already proper-cased; section dicts flattened to their
`get` results). -/
structure SectionData where
  friendly_name : List Nat
  scientific_name : List Nat
  common_name : List Nat
  categories : List (List Nat)
  min_light : Option Int
  max_light : Option Int
  min_temp : Option Int
  max_temp : Option Int
  min_humidity : Option Int
  max_humidity : Option Int
  min_moisture : Option Int
  max_moisture : Option Int
  min_soil_ec : Option Int
  max_soil_ec : Option Int

/-- `config_flow._validate_required_plant_fields`: the early-return chain
over names/categories followed by the `numeric_validations` loop. -/
def validateRequiredPlantFields (sd : SectionData) : Option (String × String) :=
  if sd.friendly_name.isEmpty then some ("names_section", "friendly_name_required")
  else if sd.scientific_name.isEmpty then some ("names_section", "scientific_name_required")
  else if sd.common_name.isEmpty then some ("names_section", "common_name_required")
  else if sd.categories.isEmpty then some ("categories_section", "categories_required")
  else if sd.min_light.isNone then some ("light_values_section", "min_light_required")
  else if sd.max_light.isNone then some ("light_values_section", "max_light_required")
  else if sd.min_temp.isNone then some ("temperature_values_section", "min_temp_required")
  else if sd.max_temp.isNone then some ("temperature_values_section", "max_temp_required")
  else if sd.min_humidity.isNone then some ("humidity_values_section", "min_humidity_required")
  else if sd.max_humidity.isNone then some ("humidity_values_section", "max_humidity_required")
  else if sd.min_moisture.isNone then some ("moisture_values_section", "min_moisture_required")
  else if sd.max_moisture.isNone then some ("moisture_values_section", "max_moisture_required")
  else if sd.min_soil_ec.isNone then some ("soil_ec_values_section", "min_soil_ec_required")
  else if sd.max_soil_ec.isNone then some ("soil_ec_values_section", "max_soil_ec_required")
  else none

/-- The `validation_pairs` list of `_validate_plant_min_max_pairs`. -/
def reconfigurePairs (sd : SectionData) : List (Option Int × Option Int × String × String) :=
  [ (sd.min_light, sd.max_light, "light", "light_values_section"),
    (sd.min_temp, sd.max_temp, "temperature", "temperature_values_section"),
    (sd.min_humidity, sd.max_humidity, "humidity", "humidity_values_section"),
    (sd.min_moisture, sd.max_moisture, "moisture", "moisture_values_section"),
    (sd.min_soil_ec, sd.max_soil_ec, "soil_ec", "soil_ec_values_section") ]

/-- `config_flow._validate_plant_min_max_pairs`. -/
def validatePlantMinMaxPairs (sd : SectionData) : Option (String × String) :=
  checkPairsLoop (reconfigurePairs sd)

/-- `config_flow._validate_configure_plant_options_input`: required fields
first, pairs only when no error. -/
def validateConfigurePlantOptionsInput (sd : SectionData) : Option (String × String) :=
  match validateRequiredPlantFields sd with
  | some e => some e
  | none => validatePlantMinMaxPairs sd

/-- `config_flow._create_updated_plant_data`: `{**current_data, ...}`
with `name`, `plant_id`, the three names, `categories` and the ten range
fields overridden; `plant_id` keeps the current truthy value, else falls
back to the submitted scientific name. Merged-dict lookups are modelled
by putting the overriding entries first (key order is not modelled). -/
def createUpdatedPlantData (sd : SectionData) (cur : PyDict) : PyDict :=
  let plant_id : Option PValue :=
    if pTruthy (dGetD cur "plant_id") then dGetD cur "plant_id"
    else some (.pstr sd.scientific_name)
  let device_name : List Nat :=
    if sd.friendly_name.isEmpty then sd.scientific_name else sd.friendly_name
  ("name", some (.pstr device_name)) ::
  ("plant_id", plant_id) ::
  ("scientific_name", some (.pstr sd.scientific_name)) ::
  ("common_name", strOrNone sd.common_name) ::
  ("categories", listOrNone sd.categories) ::
  ("friendly_name", strOrNone sd.friendly_name) ::
  ("min_light", sd.min_light.map .pnum) ::
  ("max_light", sd.max_light.map .pnum) ::
  ("min_temp", sd.min_temp.map .pnum) ::
  ("max_temp", sd.max_temp.map .pnum) ::
  ("min_humidity", sd.min_humidity.map .pnum) ::
  ("max_humidity", sd.max_humidity.map .pnum) ::
  ("min_moisture", sd.min_moisture.map .pnum) ::
  ("max_moisture", sd.max_moisture.map .pnum) ::
  ("min_soil_ec", sd.min_soil_ec.map .pnum) ::
  ("max_soil_ec", sd.max_soil_ec.map .pnum) :: cur

/-- Result of `_handle_configure_plant_options_input`: redisplay the form
with the error, or update the subentry and abort the flow. -/
inductive ConfigureOptionsResult where
  | showForm (err : String × String)
  | updateAbort (data : PyDict)

/-- `config_flow._handle_configure_plant_options_input`. -/
def handleConfigurePlantOptionsInput (sd : SectionData) (cur : PyDict) :
    ConfigureOptionsResult :=
  match validateConfigurePlantOptionsInput sd with
  | some e => .showForm e
  | none => .updateAbort (createUpdatedPlantData sd cur)

/-! ## Auth/Search client wrapper (`api.AsyncConfigEntryAuth`) -/

/-- A Python exception as seen by `_is_auth_error`: whether it is a
`PermissionError`, and its `str(...)` text. -/
structure PyException where
  isPermissionError : Bool
  message : List Nat

/-- Lowercasing of a Python string (`str.lower`, ASCII fragment). -/
def lowerStr (s : List Nat) : List Nat :=
  s.map pyToLower

/-- The `auth_indicators` substring list of `api._is_auth_error`, in
source order. -/
def authIndicators : List (List Nat) :=
  [ strCodes "unauthorized", strCodes "authentication",
    strCodes "invalid credentials", strCodes "access denied",
    strCodes "forbidden", strCodes "401", strCodes "403",
    strCodes "invalid api key", strCodes "invalid client",
    strCodes "token expired", strCodes "authentication failed",
    strCodes "wrong client id", strCodes "wrong secret",
    strCodes "no plantbook token", strCodes "permission denied",
    strCodes "wrong client id or secret", strCodes "no token available",
    strCodes "token not found", strCodes "invalid token",
    strCodes "expired token" ]

/-- `api.AsyncConfigEntryAuth._is_auth_error`: `PermissionError` is always
an auth error; otherwise the lowercased text is scanned for the
indicator substrings. -/
def isAuthError (e : PyException) : Bool :=
  e.isPermissionError
    || authIndicators.any (fun ind => strContainsSub (lowerStr e.message) ind)

/-- Outcome of the underlying SDK call. -/
inductive ApiCallOutcome (α : Type) where
  | ok (r : α)
  | raise (e : PyException)

/-- Result of the wrapped call: success, `ConfigEntryAuthFailed` with the
wrapped message, or the original exception re-raised. -/
inductive ApiResult (α : Type) where
  | ok (r : α)
  | authFailed (msg : List Nat)
  | raised (e : PyException)

/-- The `f"Authentication failed: {err}"` message. -/
def authFailedMessage (msg : List Nat) : List Nat :=
  strCodes "Authentication failed: " ++ msg

/-- `api.AsyncConfigEntryAuth.async_plant_search`, as a function of the
underlying call's outcome. -/
def asyncPlantSearch {α : Type} (outcome : ApiCallOutcome α) : ApiResult α :=
  match outcome with
  | .ok r => .ok r
  | .raise e =>
    if isAuthError e then .authFailed (authFailedMessage e.message)
    else .raised e

/-- `api.AsyncConfigEntryAuth.async_plant_detail_get`, as a function of
the underlying call's outcome (same error handling as the search). -/
def asyncPlantDetailGet {α : Type} (outcome : ApiCallOutcome α) : ApiResult α :=
  match outcome with
  | .ok r => .ok r
  | .raise e =>
    if isAuthError e then .authFailed (authFailedMessage e.message)
    else .raised e

/-! ## Entity Materializer (`sensor._create_device_entities`,
`sensor.PlantSensor`) -/

/-- A persisted device-info dict restricted to the fields the sensor
platform reads: the outer `Option` is key presence (`none` = key absent),
the inner `Option` is the stored value (`none` = Python `None`). -/
structure DeviceInfo where
  name : Option (Option (List Nat))
  plant_id : Option (Option (List Nat))
  scientific_name : Option (Option (List Nat))
  common_name : Option (Option (List Nat))
  categories : Option (Option (List (List Nat)))
  friendly_name : Option (Option (List Nat))
  min_light : Option (Option Int)
  max_light : Option (Option Int)
  min_temp : Option (Option Int)
  max_temp : Option (Option Int)
  min_humidity : Option (Option Int)
  max_humidity : Option (Option Int)
  min_moisture : Option (Option Int)
  max_moisture : Option (Option Int)
  min_soil_ec : Option (Option Int)
  max_soil_ec : Option (Option Int)
deriving DecidableEq

/-- The state held by `sensor.PlantSensor.__init__`. -/
structure PlantSensor where
  plant_name : Option (List Nat)
  plant_id : Option (List Nat)
  scientific_name : Option (List Nat)
  common_name : Option (List Nat)
  categories : Option (List (List Nat))
  friendly_name : Option (List Nat)
  min_light : Option Int
  max_light : Option Int
  min_temp : Option Int
  max_temp : Option Int
  min_humidity : Option Int
  max_humidity : Option Int
  min_moisture : Option Int
  max_moisture : Option Int
  min_soil_ec : Option Int
  max_soil_ec : Option Int
deriving DecidableEq

/-- `sensor._create_device_entities`: read each field with `dict.get`,
defaulting `name` to `"Unnamed Plant"`, `min_light` to `0` and
`max_light` to `100` when the key is absent. -/
def createDeviceEntities (d : DeviceInfo) : PlantSensor where
  plant_name := d.name.getD (some (strCodes "Unnamed Plant"))
  plant_id := d.plant_id.getD none
  scientific_name := d.scientific_name.getD none
  common_name := d.common_name.getD none
  categories := d.categories.getD none
  friendly_name := d.friendly_name.getD none
  min_light := d.min_light.getD (some 0)
  max_light := d.max_light.getD (some 100)
  min_temp := d.min_temp.getD none
  max_temp := d.max_temp.getD none
  min_humidity := d.min_humidity.getD none
  max_humidity := d.max_humidity.getD none
  min_moisture := d.min_moisture.getD none
  max_moisture := d.max_moisture.getD none
  min_soil_ec := d.min_soil_ec.getD none
  max_soil_ec := d.max_soil_ec.getD none

/-- `sensor.PlantSensor.native_value`:
`self._friendly_name or self._plant_name`. -/
def nativeValue (s : PlantSensor) : Option (List Nat) :=
  match s.friendly_name with
  | some f => if f.isEmpty then s.plant_name else some f
  | none => s.plant_name

/-- A sensor attribute value. -/
inductive AttrVal where
  | s (v : List Nat)
  | n (v : Int)
  | ls (v : List (List Nat))
deriving DecidableEq

/-- Attribute entry for a string field guarded by truthiness
(`if self._x:`). -/
def strAttr (k : String) (v : Option (List Nat)) : List (String × AttrVal) :=
  match v with
  | some x => if x.isEmpty then [] else [(k, .s x)]
  | none => []

/-- Attribute entry for a list field guarded by truthiness. -/
def listAttr (k : String) (v : Option (List (List Nat))) : List (String × AttrVal) :=
  match v with
  | some x => if x.isEmpty then [] else [(k, .ls x)]
  | none => []

/-- Attribute entry for a numeric field guarded by `is not None`. -/
def numAttr (k : String) (v : Option Int) : List (String × AttrVal) :=
  match v with
  | some x => [(k, .n x)]
  | none => []

/-- `sensor.PlantSensor.extra_state_attributes`, in source order. -/
def extraStateAttributes (s : PlantSensor) : List (String × AttrVal) :=
  strAttr "scientific_name" s.scientific_name
    ++ strAttr "common_name" s.common_name
    ++ listAttr "categories" s.categories
    ++ strAttr "plant_id" s.plant_id
    ++ numAttr "minimum_light" s.min_light
    ++ numAttr "maximum_light" s.max_light
    ++ numAttr "minimum_temperature" s.min_temp
    ++ numAttr "maximum_temperature" s.max_temp
    ++ numAttr "minimum_humidity" s.min_humidity
    ++ numAttr "maximum_humidity" s.max_humidity
    ++ numAttr "minimum_moisture" s.min_moisture
    ++ numAttr "maximum_moisture" s.max_moisture
    ++ numAttr "minimum_soil_ec" s.min_soil_ec
    ++ numAttr "maximum_soil_ec" s.max_soil_ec

/-- Spec-side: a string field contributes an attribute exactly when its
key is present with a non-null, nonempty value. -/
def specStrAttr (k : String) (f : Option (Option (List Nat))) :
    List (String × AttrVal) :=
  match f with
  | some (some v) => if v.isEmpty then [] else [(k, .s v)]
  | _ => []

/-- Spec-side: a list field contributes an attribute exactly when its key
is present with a non-null, nonempty value. -/
def specListAttr (k : String) (f : Option (Option (List (List Nat)))) :
    List (String × AttrVal) :=
  match f with
  | some (some v) => if v.isEmpty then [] else [(k, .ls v)]
  | _ => []

/-- Spec-side: a numeric field contributes an attribute exactly when its
key is present with a non-null value. -/
def specNumAttr (k : String) (f : Option (Option Int)) :
    List (String × AttrVal) :=
  match f with
  | some (some v) => [(k, .n v)]
  | _ => []

/-- Spec-side: a numeric field with a constructor default — an absent key
is substituted by the default (and emitted); a present null value is
omitted. -/
def specNumAttrD (k : String) (dflt : Int) (f : Option (Option Int)) :
    List (String × AttrVal) :=
  match f with
  | none => [(k, .n dflt)]
  | some none => []
  | some (some v) => [(k, .n v)]

/-- Spec-side description of the materialized attribute set, stated
directly on the persisted record: a string/list field contributes exactly
when present with a non-null nonempty value; a numeric field contributes
exactly when present with a non-null value; an absent `min_light`
(resp. `max_light`) key is substituted by the default `0` (resp. `100`). -/
def specAttributes (d : DeviceInfo) : List (String × AttrVal) :=
  specStrAttr "scientific_name" d.scientific_name
    ++ specStrAttr "common_name" d.common_name
    ++ specListAttr "categories" d.categories
    ++ specStrAttr "plant_id" d.plant_id
    ++ specNumAttrD "minimum_light" 0 d.min_light
    ++ specNumAttrD "maximum_light" 100 d.max_light
    ++ specNumAttr "minimum_temperature" d.min_temp
    ++ specNumAttr "maximum_temperature" d.max_temp
    ++ specNumAttr "minimum_humidity" d.min_humidity
    ++ specNumAttr "maximum_humidity" d.max_humidity
    ++ specNumAttr "minimum_moisture" d.min_moisture
    ++ specNumAttr "maximum_moisture" d.max_moisture
    ++ specNumAttr "minimum_soil_ec" d.min_soil_ec
    ++ specNumAttr "maximum_soil_ec" d.max_soil_ec

/-! ## Wizard session (`PlantSubentryFlowHandler`)

One wizard session, single-threaded (see the spec's concurrency model):
whether a re-authentication flow is pending for the parent entry
(`_is_reauth_flow_in_progress`) is an input to the steps; the boolean in
each step's result records whether the step spawned a new re-auth flow
(`hass.async_create_task(... SOURCE_REAUTH ...)`). Detail enrichment of a
selected plant (`_fetch_plant_details`) does not move the state machine
and is not modelled. -/

/-- Mutable state of `PlantSubentryFlowHandler`. -/
structure HandlerState where
  plant_name : Option (List Nat)
  search_results : List PyDict
  selected_plant : Option PyDict
deriving DecidableEq

/-- The observable result of one wizard step. -/
inductive StepResult where
  | abort (reason : String)
  | showForm (step : String)
deriving DecidableEq

/-- Outcome of the plant-search API call made by the search step, after
the `results_list` extraction. -/
inductive SearchOutcome where
  | results (rs : List PyDict)
  | authError
  | transientError
deriving DecidableEq

/-- `async_step_configure_plant` on first entry: shows the configuration
form (prefilled from `selected_plant`). -/
def stepConfigurePlant (st : HandlerState) : HandlerState × StepResult × Bool :=
  (st, .showForm "configure_plant", false)

/-- `async_step_select_plant` on first entry. -/
def stepSelectPlant (st : HandlerState) : HandlerState × StepResult × Bool :=
  (st, .showForm "select_plant", false)

/-- `async_step_no_results_found` on first entry. -/
def stepNoResultsFound (st : HandlerState) : HandlerState × StepResult × Bool :=
  (st, .showForm "no_results_found", false)

/-- `async_step_search_plants`: dispatch on the search outcome. An auth
failure aborts with `reauth_required` and spawns a re-auth flow only when
none is pending; a transient error redisplays the search form. -/
def stepSearchPlants (pending : Bool) (st : HandlerState) (outcome : SearchOutcome) :
    HandlerState × StepResult × Bool :=
  match outcome with
  | .results [] => stepNoResultsFound st
  | .results [r] => stepConfigurePlant { st with selected_plant := some r }
  | .results rs => stepSelectPlant { st with search_results := rs }
  | .authError => (st, .abort "reauth_required", !pending)
  | .transientError => (st, .showForm "user", false)

/-- `async_step_user` of the subentry flow: abort immediately when a
re-auth flow is pending for the parent entry; otherwise show the search
form, or on submitted input strip the plant name, re-show on blank, and
proceed to the search step. -/
def stepUser (pending : Bool) (st : HandlerState) (input : Option (List Nat))
    (outcome : SearchOutcome) : HandlerState × StepResult × Bool :=
  if pending then (st, .abort "reauth_required", false)
  else
    match input with
    | none => (st, .showForm "user", false)
    | some raw =>
      let nm := pyStrip raw
      if nm.isEmpty then (st, .showForm "user", false)
      else stepSearchPlants pending { st with plant_name := some nm } outcome

/-! ## Image Fetcher (`PlantSubentryFlowHandler.async_download_image`) -/

/-- Modelled from the spec: `HTTP_OK` is imported by `config_flow` from
`.const`, but `const.py` under `src/` contains no such definition; the
spec's Image Fetcher contract ("a non-success status ... yields a boolean
failure signal") fixes the success status as HTTP 200. -/
def HTTP_OK : Nat := 200

/-- Outcome of the HTTP GET for the image, or a network/timeout error
(`TimeoutError`/`OSError` anywhere in the guarded block). -/
inductive NetResult where
  | ok (status : Nat) (bytes : List Nat)
  | netError
deriving DecidableEq

/-- Return value of `async_download_image`: a path string, or `False`. -/
inductive DownloadOutcome where
  | path (p : List Nat)
  | failed
deriving DecidableEq

/-- Side effects performed by `async_download_image`. -/
structure DownloadEffects where
  networkCalled : Bool
  madeDir : Bool
  wrote : Option (List Nat)
deriving DecidableEq

/-- `async_download_image`, as a function of whether the destination
already exists and of the network outcome: an existing destination is
returned untouched with no network call; otherwise a network error or a
non-`HTTP_OK` status yields `False`, and success creates the directory,
writes the bytes and returns the path. -/
def asyncDownloadImage (destExists : Bool) (net : NetResult)
    (downloadTo : List Nat) : DownloadOutcome × DownloadEffects :=
  if destExists then (.path downloadTo, ⟨false, false, none⟩)
  else
    match net with
    | .netError => (.failed, ⟨true, false, none⟩)
    | .ok status bytes =>
      if status ≠ HTTP_OK then (.failed, ⟨true, false, none⟩)
      else (.path downloadTo, ⟨true, true, some bytes⟩)

/-- The record's display name as the sensor constructor computes it:
the `name` field, `"Unnamed Plant"` when the key is absent. -/
def displayName (d : DeviceInfo) : Option (List Nat) :=
  d.name.getD (some (strCodes "Unnamed Plant"))

/-- A persisted record with `scientific_name` present as an empty string,
`name` present, and the `min_light`/`max_light` keys absent. -/
def cxRecord : DeviceInfo where
  name := some (some (strCodes "X"))
  plant_id := none
  scientific_name := some (some [])
  common_name := none
  categories := none
  friendly_name := none
  min_light := none
  max_light := none
  min_temp := none
  max_temp := none
  min_humidity := none
  max_humidity := none
  min_moisture := none
  max_moisture := none
  min_soil_ec := none
  max_soil_ec := none

/-- A fresh subentry-flow handler state (`__init__`). -/
def emptyHandlerState : HandlerState where
  plant_name := none
  search_results := []
  selected_plant := none

/-- A raw wizard submission whose three names are a given string, with a
category and valid range values filled in. -/
def wsRaw (s : List Nat) : RawInput where
  friendly_name := s
  scientific_name := s
  common_name := s
  categories := [[97]]
  min_light := some 0
  max_light := some 1
  min_temp := some 0
  max_temp := some 1
  min_humidity := some 0
  max_humidity := some 1
  min_moisture := some 0
  max_moisture := some 1
  min_soil_ec := some 0
  max_soil_ec := some 1

/-- A concrete valid reconfigure submission. -/
def sampleSection : SectionData where
  friendly_name := strCodes "Rose"
  scientific_name := strCodes "Rosa Rubiginosa"
  common_name := strCodes "Rose"
  categories := [strCodes "Flower"]
  min_light := some 10
  max_light := some 20
  min_temp := some 5
  max_temp := some 30
  min_humidity := some 30
  max_humidity := some 60
  min_moisture := some 20
  max_moisture := some 50
  min_soil_ec := some 300
  max_soil_ec := some 700

/-- A concrete current plant record with a device id and a truthy plant
id. -/
def sampleCurrent : PyDict :=
  [ ("device_id", some (.pstr (strCodes "rosa_rubiginosa"))),
    ("plant_id", some (.pstr (strCodes "rosa rubiginosa"))),
    ("name", some (.pstr (strCodes "Old Name"))),
    ("min_light", some (.pnum 1)) ]

/-! ## Theorems -/

/-- C4: `generate_device_id` returns the slugified form of, in priority
order, `plant_id` if present (non-empty), else `scientific_name`, else
`name`, else the literal fallback `"unnamed_plant"`; it is a total Lean
function, hence deterministic and pure; on
`{"plant_id": "Test Plant #1 (Variety A)"}` it returns
`"test_plant_1_variety_a"`. -/
theorem generate_device_id_priority :
    (∀ (d : StrDict) (pid : List Nat),
        sGet d "plant_id" = some pid → pid ≠ [] →
        generate_device_id d = slugify pid)
  ∧ (∀ (d : StrDict) (sci : List Nat),
        (∀ pid ∈ sGet d "plant_id", pid = []) →
        sGet d "scientific_name" = some sci → sci ≠ [] →
        generate_device_id d = slugify sci)
  ∧ (∀ (d : StrDict) (nm : List Nat),
        (∀ pid ∈ sGet d "plant_id", pid = []) →
        (∀ sci ∈ sGet d "scientific_name", sci = []) →
        sGet d "name" = some nm →
        generate_device_id d = slugify nm)
  ∧ (∀ d : StrDict,
        (∀ pid ∈ sGet d "plant_id", pid = []) →
        (∀ sci ∈ sGet d "scientific_name", sci = []) →
        sGet d "name" = none →
        generate_device_id d = strCodes "unnamed_plant")
  ∧ generate_device_id [("plant_id", strCodes "Test Plant #1 (Variety A)")]
      = strCodes "test_plant_1_variety_a" := by
  refine ⟨?_, ?_, ?_, ?_, by decide⟩
  · intro d pid h hne
    simp [generate_device_id, h, strTruthy, hne]
  · intro d sci hpid h hne
    unfold generate_device_id
    cases hp : sGet d "plant_id" with
    | none =>
      simp [generate_device_id.generateFromScientific, h, strTruthy, hne]
    | some pid =>
      have : pid = [] := hpid pid (by simp [hp])
      subst this
      simp [strTruthy, generate_device_id.generateFromScientific, h, hne]
  · intro d nm hpid hsci h
    unfold generate_device_id
    have hname : generate_device_id.generateFromName d = slugify nm := by
      simp [generate_device_id.generateFromName, h]
    have hsci2 : generate_device_id.generateFromScientific d = slugify nm := by
      unfold generate_device_id.generateFromScientific
      cases hs : sGet d "scientific_name" with
      | none => simpa [hs] using hname
      | some sci =>
        have : sci = [] := hsci sci (by simp [hs])
        subst this
        simpa [strTruthy, hs] using hname
    cases hp : sGet d "plant_id" with
    | none => simpa [hp] using hsci2
    | some pid =>
      have : pid = [] := hpid pid (by simp [hp])
      subst this
      simpa [strTruthy, hp] using hsci2
  · intro d hpid hsci h
    have h5 : generate_device_id.generateFromName d = strCodes "unnamed_plant" := by
      simp [generate_device_id.generateFromName, h]
      decide
    unfold generate_device_id
    have hsci2 : generate_device_id.generateFromScientific d
        = strCodes "unnamed_plant" := by
      unfold generate_device_id.generateFromScientific
      cases hs : sGet d "scientific_name" with
      | none => simpa [hs] using h5
      | some sci =>
        have : sci = [] := hsci sci (by simp [hs])
        subst this
        simpa [strTruthy, hs] using h5
    cases hp : sGet d "plant_id" with
    | none => simpa [hp] using hsci2
    | some pid =>
      have : pid = [] := hpid pid (by simp [hp])
      subst this
      simpa [strTruthy, hp] using hsci2

/-- Witness for C4: the priority branches at concrete dicts. -/
theorem generate_device_id_priority_witness :
    generate_device_id [("plant_id", strCodes "abc")] = slugify (strCodes "abc")
  ∧ generate_device_id [("plant_id", []), ("scientific_name", strCodes "Rosa")]
      = slugify (strCodes "Rosa")
  ∧ generate_device_id [("plant_id", []), ("name", strCodes "Fern")]
      = slugify (strCodes "Fern")
  ∧ generate_device_id [] = strCodes "unnamed_plant" := by
  obtain ⟨h1, h2, h3, h4, _⟩ := generate_device_id_priority
  refine ⟨h1 _ _ rfl (by decide), h2 _ _ ?_ rfl (by decide), h3 _ _ ?_ ?_ rfl, h4 _ ?_ ?_ rfl⟩
  all_goals first
    | (intro x hx; simp [sGet] at hx; simp [hx])
    | (intro x hx; simp [sGet] at hx)

/-- C7: an existing destination is returned as-is with no network call and
nothing written; otherwise a network/timeout error or a non-success HTTP
status yields the `False` failure signal, and a success response creates
the directory, writes the bytes and returns the written path. -/
theorem download_image_contract :
    (∀ (net : NetResult) (dest : List Nat),
        asyncDownloadImage true net dest
          = (.path dest, ⟨false, false, none⟩))
  ∧ (∀ dest : List Nat,
        asyncDownloadImage false .netError dest
          = (.failed, ⟨true, false, none⟩))
  ∧ (∀ (dest bytes : List Nat) (status : Nat), status ≠ HTTP_OK →
        asyncDownloadImage false (.ok status bytes) dest
          = (.failed, ⟨true, false, none⟩))
  ∧ (∀ dest bytes : List Nat,
        asyncDownloadImage false (.ok HTTP_OK bytes) dest
          = (.path dest, ⟨true, true, some bytes⟩)) := by
  refine ⟨fun net dest => rfl, fun dest => rfl, ?_, fun dest bytes => ?_⟩
  · intro dest bytes status h
    simp [asyncDownloadImage, h]
  · simp [asyncDownloadImage]

/-- Witness for C7: a 404 response fails, an existing destination is
returned without a network call. -/
theorem download_image_contract_witness :
    asyncDownloadImage false (.ok 404 [1, 2]) (strCodes "p.jpg")
      = (.failed, ⟨true, false, none⟩)
  ∧ asyncDownloadImage true (.ok 200 [1, 2]) (strCodes "p.jpg")
      = (.path (strCodes "p.jpg"), ⟨false, false, none⟩) := by
  obtain ⟨h1, _, h3, _⟩ := download_image_contract
  exact ⟨h3 _ _ 404 (by decide), h1 _ _⟩

/-- C8: a search yielding exactly one result bypasses the selection step:
the selected plant becomes that single result and the configure form is
shown directly, with no re-auth spawned. -/
theorem single_result_goes_to_configure :
    ∀ (pending : Bool) (st : HandlerState) (r : PyDict),
      stepSearchPlants pending st (.results [r])
        = ({ st with selected_plant := some r },
            .showForm "configure_plant", false) := by
  intro pending st r
  rfl

/-- C2: an exception is classified as an authentication failure exactly
when it is a `PermissionError` or its lowercased text contains one of the
fixed indicator substrings; both wrapped calls turn such exceptions into
an auth failure carrying the original message and propagate any other
exception unchanged; `ValueError("Invalid input format")` is not an auth
error. -/
theorem auth_error_classification :
    (∀ e : PyException,
        isAuthError e = true ↔
          e.isPermissionError = true
            ∨ ∃ ind ∈ authIndicators,
                strContainsSub (lowerStr e.message) ind = true)
  ∧ (∀ e : PyException,
        asyncPlantSearch (ApiCallOutcome.raise e : ApiCallOutcome Unit)
          = (if isAuthError e then .authFailed (authFailedMessage e.message)
              else .raised e)
        ∧ asyncPlantDetailGet (ApiCallOutcome.raise e : ApiCallOutcome Unit)
          = (if isAuthError e then .authFailed (authFailedMessage e.message)
              else .raised e))
  ∧ isAuthError ⟨false, strCodes "Invalid input format"⟩ = false := by
  refine ⟨?_, fun e => ⟨rfl, rfl⟩, by decide⟩
  intro e
  simp [isAuthError, List.any_eq_true]

/-- C5: a wizard session entered while a re-auth flow is pending for the
parent credentials aborts immediately (so neither the search step's forms
nor the configure step are ever reached with a pending re-auth), a re-auth
flow is spawned only when none is pending, and an auth failure during
search spawns one exactly when none is pending and then aborts the
session. -/
theorem reauth_pending_guard :
    (∀ (st : HandlerState) (input : Option (List Nat)) (outcome : SearchOutcome),
        stepUser true st input outcome = (st, .abort "reauth_required", false))
  ∧ (∀ (pending : Bool) (st : HandlerState) (input : Option (List Nat))
        (outcome : SearchOutcome),
        ((stepUser pending st input outcome).2.1 = .showForm "configure_plant"
          ∨ (stepUser pending st input outcome).2.1 = .showForm "select_plant"
          ∨ (stepUser pending st input outcome).2.1 = .showForm "no_results_found") →
        pending = false)
  ∧ (∀ (pending : Bool) (st : HandlerState) (input : Option (List Nat))
        (outcome : SearchOutcome),
        (stepUser pending st input outcome).2.2 = true → pending = false)
  ∧ (∀ st : HandlerState,
        stepSearchPlants false st .authError = (st, .abort "reauth_required", true))
  ∧ (∀ st : HandlerState,
        stepSearchPlants true st .authError = (st, .abort "reauth_required", false)) := by
  refine ⟨fun st input outcome => rfl, ?_, ?_, fun st => rfl, fun st => rfl⟩
  · intro pending st input outcome h
    cases pending with
    | false => rfl
    | true => simp [stepUser] at h
  · intro pending st input outcome h
    cases pending with
    | false => rfl
    | true => simp [stepUser] at h

/-- Witness for C5: the guard at concrete inputs — an aborted session with
a pending re-auth, a configure form reached without one, and a spawn
happening without one. -/
theorem reauth_pending_guard_witness :
    stepUser true emptyHandlerState none .authError
      = (emptyHandlerState, .abort "reauth_required", false)
  ∧ (false : Bool) = false
  ∧ (false : Bool) = false := by
  obtain ⟨h1, h2, h3, _, _⟩ := reauth_pending_guard
  refine ⟨h1 emptyHandlerState none .authError, ?_, ?_⟩
  · exact h2 false emptyHandlerState (some (strCodes "rose")) (.results [[]])
      (Or.inl (by decide))
  · exact h3 false emptyHandlerState (some (strCodes "rose")) .authError (by decide)

/-- C3 counterexample: a record whose `min_light`/`max_light` keys are
absent and whose `scientific_name` is present (non-null) as the empty
string materializes the attributes `minimum_light = 0` and
`maximum_light = 100` (substituted defaults for absent fields) and omits
`scientific_name` — contradicting "every absent field is omitted entirely
… never substituted with a default" and "contains exactly the present
(non-null) fields". -/
theorem sensor_attributes_counterexample :
    cxRecord.min_light = none
  ∧ cxRecord.max_light = none
  ∧ cxRecord.scientific_name = some (some [])
  ∧ extraStateAttributes (createDeviceEntities cxRecord)
      = [("minimum_light", AttrVal.n 0), ("maximum_light", AttrVal.n 100)] := by
  refine ⟨rfl, rfl, rfl, ?_⟩
  decide

/-- Reading a string field with `dict.get` and filtering by truthiness
agrees with the spec-side presence condition. -/
theorem strAttr_getD (k : String) (f : Option (Option (List Nat))) :
    strAttr k (f.getD none) = specStrAttr k f := by
  rcases f with _ | (_ | v) <;> rfl

/-- Reading a list field with `dict.get` and filtering by truthiness
agrees with the spec-side presence condition. -/
theorem listAttr_getD (k : String) (f : Option (Option (List (List Nat)))) :
    listAttr k (f.getD none) = specListAttr k f := by
  rcases f with _ | (_ | v) <;> rfl

/-- Reading a numeric field with `dict.get` and filtering by
`is not None` agrees with the spec-side presence condition. -/
theorem numAttr_getD (k : String) (f : Option (Option Int)) :
    numAttr k (f.getD none) = specNumAttr k f := by
  rcases f with _ | (_ | v) <;> rfl

/-- Reading a numeric field with a `dict.get` default and filtering by
`is not None` agrees with the spec-side defaulted presence condition. -/
theorem numAttr_getD_default (k : String) (dflt : Int) (f : Option (Option Int)) :
    numAttr k (f.getD (some dflt)) = specNumAttrD k dflt f := by
  rcases f with _ | (_ | v) <;> rfl

/-- C3 amended: the materialized sensor's displayed value is
`friendly_name` when present, non-null and non-empty, otherwise the
record's display name; the attribute set is exactly `specAttributes`:
the present non-null non-empty fields among `scientific_name`,
`common_name`, `categories`, `plant_id`, the present non-null range
fields renamed to `minimum_*`/`maximum_*` — except that absent
`min_light`/`max_light` keys are substituted by the constructor defaults
`0`/`100` and emitted; null-valued fields are always omitted. -/
theorem sensor_materialization (d : DeviceInfo) :
    nativeValue (createDeviceEntities d)
      = (match d.friendly_name with
         | some (some f) => if f.isEmpty then displayName d else some f
         | _ => displayName d)
  ∧ extraStateAttributes (createDeviceEntities d) = specAttributes d := by
  constructor
  · rcases hf : d.friendly_name with _ | (_ | f) <;>
      simp [nativeValue, createDeviceEntities, displayName, hf]
  · show extraStateAttributes (createDeviceEntities d) = specAttributes d
    simp only [extraStateAttributes, createDeviceEntities, specAttributes,
      strAttr_getD, listAttr_getD, numAttr_getD, numAttr_getD_default]

/-- A reconfigure submission that passed validation has all required
fields, in particular a nonempty friendly name. -/
theorem requiredPlantFields_none_friendly (sd : SectionData)
    (h : validateRequiredPlantFields sd = none) :
    sd.friendly_name.isEmpty = false := by
  cases hb : sd.friendly_name.isEmpty with
  | false => rfl
  | true =>
    unfold validateRequiredPlantFields at h
    rw [hb] at h
    simp at h

/-- Passing the full reconfigure validation implies passing the
required-field validation. -/
theorem configureOptions_none_required (sd : SectionData)
    (h : validateConfigurePlantOptionsInput sd = none) :
    validateRequiredPlantFields sd = none := by
  unfold validateConfigurePlantOptionsInput at h
  cases hr : validateRequiredPlantFields sd with
  | none => rfl
  | some e => rw [hr] at h; exact absurd h (by simp)

/-- C6: on a valid reconfigure submission the flow updates the subentry
with `_create_updated_plant_data`, whose result preserves `device_id` and
the existing (truthy) `plant_id` of the current record, while `name` (the
submitted friendly name), `categories` and all ten range fields are
replaced by the submitted values. -/
theorem reconfigure_update (sd : SectionData) (cur : PyDict)
    (hvalid : validateConfigurePlantOptionsInput sd = none)
    (hpid : pTruthy (dGetD cur "plant_id") = true) :
    handleConfigurePlantOptionsInput sd cur
      = .updateAbort (createUpdatedPlantData sd cur)
  ∧ dGet (createUpdatedPlantData sd cur) "device_id" = dGet cur "device_id"
  ∧ dGetD (createUpdatedPlantData sd cur) "plant_id" = dGetD cur "plant_id"
  ∧ dGet (createUpdatedPlantData sd cur) "name"
      = some (some (.pstr sd.friendly_name))
  ∧ dGet (createUpdatedPlantData sd cur) "categories"
      = some (listOrNone sd.categories)
  ∧ dGet (createUpdatedPlantData sd cur) "min_light"
      = some (sd.min_light.map .pnum)
  ∧ dGet (createUpdatedPlantData sd cur) "max_light"
      = some (sd.max_light.map .pnum)
  ∧ dGet (createUpdatedPlantData sd cur) "min_temp"
      = some (sd.min_temp.map .pnum)
  ∧ dGet (createUpdatedPlantData sd cur) "max_temp"
      = some (sd.max_temp.map .pnum)
  ∧ dGet (createUpdatedPlantData sd cur) "min_humidity"
      = some (sd.min_humidity.map .pnum)
  ∧ dGet (createUpdatedPlantData sd cur) "max_humidity"
      = some (sd.max_humidity.map .pnum)
  ∧ dGet (createUpdatedPlantData sd cur) "min_moisture"
      = some (sd.min_moisture.map .pnum)
  ∧ dGet (createUpdatedPlantData sd cur) "max_moisture"
      = some (sd.max_moisture.map .pnum)
  ∧ dGet (createUpdatedPlantData sd cur) "min_soil_ec"
      = some (sd.min_soil_ec.map .pnum)
  ∧ dGet (createUpdatedPlantData sd cur) "max_soil_ec"
      = some (sd.max_soil_ec.map .pnum) := by
  have hf : sd.friendly_name.isEmpty = false :=
    requiredPlantFields_none_friendly sd (configureOptions_none_required sd hvalid)
  refine ⟨?_, ?_, ?_, ?_, ?_, ?_, ?_, ?_, ?_, ?_, ?_, ?_, ?_, ?_, ?_⟩
  · unfold handleConfigurePlantOptionsInput
    rw [hvalid]
  · simp [createUpdatedPlantData, dGet]
  · have hpid2 : pTruthy ((dGet cur "plant_id").getD none) = true := hpid
    simp [createUpdatedPlantData, dGetD, dGet, hpid2]
  · simp [createUpdatedPlantData, dGet, hf]
  all_goals simp [createUpdatedPlantData, dGet]

/-- Witness for C6: the reconfigure update at a concrete valid submission
and current record. -/
theorem reconfigure_update_witness :
    handleConfigurePlantOptionsInput sampleSection sampleCurrent
      = .updateAbort (createUpdatedPlantData sampleSection sampleCurrent)
  ∧ dGet (createUpdatedPlantData sampleSection sampleCurrent) "device_id"
      = dGet sampleCurrent "device_id"
  ∧ dGetD (createUpdatedPlantData sampleSection sampleCurrent) "plant_id"
      = dGetD sampleCurrent "plant_id" := by
  obtain ⟨h1, h2, h3, _⟩ :=
    reconfigure_update sampleSection sampleCurrent (by decide) (by decide)
  exact ⟨h1, h2, h3⟩

/-- The `break`-ing pair-validation loop returns the first failing pair
of its list. -/
theorem checkPairsLoop_eq_findSome
    (l : List (Option Int × Option Int × String × String)) :
    checkPairsLoop l
      = l.findSome? (fun q => specPairCheck q.1 q.2.1 q.2.2.1 q.2.2.2) := by
  induction l with
  | nil => rfl
  | cons a t ih =>
    obtain ⟨mn, mx, ft, sk⟩ := a
    rw [List.findSome?_cons]
    cases mn with
    | none => cases mx <;> simpa [checkPairsLoop, specPairCheck] using ih
    | some mnv =>
      cases mx with
      | none => simpa [checkPairsLoop, specPairCheck] using ih
      | some mxv =>
        have hL : checkPairsLoop ((some mnv, some mxv, ft, sk) :: t)
            = if mxv < mnv then some (sk, "min_greater_than_max_" ++ ft)
              else if mnv = mxv then some (sk, "min_equals_max_" ++ ft)
              else checkPairsLoop t := rfl

        have hR : specPairCheck (some mnv) (some mxv) ft sk
            = if mxv < mnv then some (sk, "min_greater_than_max_" ++ ft)
              else if mnv = mxv then some (sk, "min_equals_max_" ++ ft)
              else none := rfl
        rw [hL, hR]
        split_ifs <;> simp [ih]

/-- The first failure of a checklist headed by a guarded entry. -/
theorem findSome?_guard_cons {α : Type} (c : Prop) [Decidable c] (e : α)
    (l : List (Option α)) :
    List.findSome? id ((if c then some e else none) :: l)
      = if c then some e else List.findSome? id l := by
  by_cases h : c <;> simp [h, List.findSome?_cons]

/-- The `elif` chain of `_validate_required_fields` returns the first
failure of the ordered required-field checklist. -/
theorem validateRequiredFields_eq_findSome (p : PlantData) :
    validateRequiredFields p = (requiredChecks p).findSome? id := by
  unfold requiredChecks
  simp only [findSome?_guard_cons, List.findSome?_nil]
  rfl

/-- `_validate_required_fields` passes exactly when every field is
present. -/
theorem validateRequiredFields_none_iff (p : PlantData) :
    validateRequiredFields p = none ↔ allFieldsPresent p = true := by
  rw [validateRequiredFields_eq_findSome, List.findSome?_eq_none_iff]
  simp [requiredChecks, allFieldsPresent, Option.isSome_iff_ne_none, and_assoc]

/-- C1: the wizard's validation returns exactly the first failure of the
fixed ordered checklist — friendly name, scientific name, common name,
categories, then the ten range fields in order (light, temp, humidity,
moisture, soil_ec; min before max) — and, only when all fields are
present, the first violated min/max pair in that same dimension order,
with distinct errors for `min > max` and `min == max`. -/
theorem validation_first_failure_order (p : PlantData) :
    validatePlantConfiguration p = specValidate p := by
  unfold validatePlantConfiguration specValidate
  rw [List.findSome?_append]
  cases h : validateRequiredFields p with
  | some e =>
    rw [← validateRequiredFields_eq_findSome, h]
    rfl
  | none =>
    have hall : allFieldsPresent p = true := (validateRequiredFields_none_iff p).mp h
    rw [← validateRequiredFields_eq_findSome, h, hall]
    show validateMinMaxPairs p = Option.or none ((pairFailures p).findSome? id)
    rw [Option.none_or, validateMinMaxPairs, checkPairsLoop_eq_findSome]
    rfl

/-- A whitespace-only string strips to the empty string. -/
theorem pyStrip_eq_nil_of_all_space (s : List Nat)
    (hws : ∀ c ∈ s, pyIsSpace c = true) : pyStrip s = [] := by
  have h1 : trimL s = [] := by
    unfold trimL
    exact List.dropWhile_eq_nil_iff.mpr hws
  simp [pyStrip, trimR, h1]

/-- C10: `_to_proper_case` returns a whitespace-only string unchanged,
and a whitespace-only (nonempty) name is truthy: a submission whose three
names are such a string passes the full validation and is persisted with
`friendly_name` still containing only whitespace. -/
theorem whitespace_only_passthrough (s : List Nat)
    (hws : ∀ c ∈ s, pyIsSpace c = true) :
    toProperCase s = s
  ∧ (s ≠ [] →
      validatePlantConfiguration (extractPlantData (wsRaw s)) = none
      ∧ dGet (createPlantEntry (extractPlantData (wsRaw s)) none).data
          "friendly_name" = some (some (.pstr s))) := by
  have hstrip : pyStrip s = [] := pyStrip_eq_nil_of_all_space s hws
  have htp : toProperCase s = s := by
    unfold toProperCase
    simp [hstrip]
  refine ⟨htp, fun hne => ⟨?_, ?_⟩⟩
  · have hfe : s.isEmpty = false := by simpa using hne
    have hreq : validateRequiredFields (extractPlantData (wsRaw s)) = none := by
      unfold validateRequiredFields extractPlantData wsRaw
      simp [htp, hfe]
    have hpairs : validateMinMaxPairs (extractPlantData (wsRaw s)) = none := by
      simp [validateMinMaxPairs, validationPairs, extractPlantData, wsRaw,
        checkPairsLoop]
    unfold validatePlantConfiguration
    rw [hreq, hpairs]
  · have hfe : s.isEmpty = false := by simpa using hne
    simp [createPlantEntry, dGet, extractPlantData, wsRaw, strOrNone, htp, hfe]

/-- Witness for C10: a single space passes validation and is persisted
as-is. -/
theorem whitespace_only_passthrough_witness :
    toProperCase [32] = [32]
  ∧ validatePlantConfiguration (extractPlantData (wsRaw [32])) = none
  ∧ dGet (createPlantEntry (extractPlantData (wsRaw [32])) none).data
      "friendly_name" = some (some (.pstr [32])) := by
  obtain ⟨h1, h2⟩ := whitespace_only_passthrough [32] (by decide)
  obtain ⟨h3, h4⟩ := h2 (by decide)
  exact ⟨h1, h3, h4⟩

/-- Uppercasing preserves whitespace-ness. -/
theorem pyIsSpace_pyToUpper (c : Nat) : pyIsSpace (pyToUpper c) = pyIsSpace c := by
  unfold pyIsSpace pyToUpper
  split_ifs with h
  · rw [decide_eq_decide]
    omega
  · rfl

/-- Lowercasing preserves whitespace-ness. -/
theorem pyIsSpace_pyToLower (c : Nat) : pyIsSpace (pyToLower c) = pyIsSpace c := by
  unfold pyIsSpace pyToLower
  split_ifs with h
  · rw [decide_eq_decide]
    omega
  · rfl

/-- Uppercasing preserves casedness. -/
theorem pyIsCased_pyToUpper (c : Nat) : pyIsCased (pyToUpper c) = pyIsCased c := by
  unfold pyIsCased pyToUpper
  split_ifs with h
  · rw [decide_eq_decide]
    omega
  · rfl

/-- Lowercasing preserves casedness. -/
theorem pyIsCased_pyToLower (c : Nat) : pyIsCased (pyToLower c) = pyIsCased c := by
  unfold pyIsCased pyToLower
  split_ifs with h
  · rw [decide_eq_decide]
    omega
  · rfl

/-- Uppercasing is idempotent. -/
theorem pyToUpper_pyToUpper (c : Nat) : pyToUpper (pyToUpper c) = pyToUpper c := by
  unfold pyToUpper
  split_ifs <;> omega

/-- Lowercasing is idempotent. -/
theorem pyToLower_pyToLower (c : Nat) : pyToLower (pyToLower c) = pyToLower c := by
  unfold pyToLower
  split_ifs <;> omega

/-- `str.title` preserves length. -/
theorem titleAux_length (b : Bool) (l : List Nat) :
    (titleAux b l).length = l.length := by
  induction l generalizing b with
  | nil => rfl
  | cons c t ih =>
    cases hc : pyIsCased c <;> simp [titleAux, hc, ih]

/-- One `str.title` pass over a title-cased string changes nothing. -/
theorem titleAux_titleAux (b : Bool) (l : List Nat) :
    titleAux b (titleAux b l) = titleAux b l := by
  induction l generalizing b with
  | nil => rfl
  | cons c t ih =>
    cases hc : pyIsCased c with
    | false => simp [titleAux, hc, ih]
    | true =>
      cases b with
      | false =>
        simp [titleAux, hc, pyIsCased_pyToUpper, pyToUpper_pyToUpper, ih]
      | true =>
        simp [titleAux, hc, pyIsCased_pyToLower, pyToLower_pyToLower, ih]

/-- `str.title` maps a cons to a cons whose head has the same
whitespace-ness. -/
theorem titleAux_cons_space (b : Bool) (c : Nat) (t : List Nat) :
    ∃ c₂ t₂, titleAux b (c :: t) = c₂ :: t₂ ∧ pyIsSpace c₂ = pyIsSpace c := by
  cases hc : pyIsCased c with
  | false => exact ⟨c, titleAux false t, by simp [titleAux, hc], rfl⟩
  | true =>
    cases b with
    | false =>
      exact ⟨pyToUpper c, titleAux true t, by simp [titleAux, hc],
        pyIsSpace_pyToUpper c⟩
    | true =>
      exact ⟨pyToLower c, titleAux true t, by simp [titleAux, hc],
        pyIsSpace_pyToLower c⟩

/-- `str.title` preserves the whitespace-ness of the last character. -/
theorem titleAux_getLast_space (l : List Nat) :
    ∀ (b : Bool) (c₁ : Nat), l.getLast? = some c₁ →
      ∃ c₂, (titleAux b l).getLast? = some c₂ ∧ pyIsSpace c₂ = pyIsSpace c₁ := by
  induction l with
  | nil => intro b c₁ h; simp at h
  | cons c t ih =>
    intro b c₁ h
    cases t with
    | nil =>
      simp at h
      subst h
      obtain ⟨c₂, t₂, ht, hsp⟩ := titleAux_cons_space b c []
      have hlen := titleAux_length b [c]
      rw [ht] at hlen
      have ht₂ : t₂ = [] := by
        rw [List.length_eq_zero.symm]
        simpa using hlen
      subst ht₂
      exact ⟨c₂, by simp [ht], hsp⟩
    | cons d u =>
      rw [List.getLast?_cons_cons] at h
      cases hc : pyIsCased c with
      | false =>
        obtain ⟨c₂, hc₂, hsp⟩ := ih false c₁ h
        obtain ⟨e, Y, hdu, _⟩ := titleAux_cons_space false d u
        have hstep : titleAux b (c :: d :: u) = c :: titleAux false (d :: u) := by
          simp [titleAux, hc]
        refine ⟨c₂, ?_, hsp⟩
        rw [hstep, hdu, List.getLast?_cons_cons, ← hdu, hc₂]
      | true =>
        obtain ⟨c₂, hc₂, hsp⟩ := ih true c₁ h
        obtain ⟨e, Y, hdu, _⟩ := titleAux_cons_space true d u
        have hstep : titleAux b (c :: d :: u)
            = (if b then pyToLower c else pyToUpper c)
                :: titleAux true (d :: u) := by
          simp [titleAux, hc]
        refine ⟨c₂, ?_, hsp⟩
        rw [hstep, hdu, List.getLast?_cons_cons, ← hdu, hc₂]

/-- The head of a `dropWhile` result fails the predicate. -/
theorem head_dropWhile_false (p : Nat → Bool) (l : List Nat) :
    ∀ c, (l.dropWhile p).head? = some c → p c = false := by
  induction l with
  | nil => intro c h; simp at h
  | cons a t ih =>
    intro c h
    rw [List.dropWhile_cons] at h
    by_cases hp : p a
    · rw [if_pos hp] at h
      exact ih c h
    · rw [if_neg hp] at h
      simp at h
      rw [← h]
      simpa using hp

/-- The head of a stripped string is not whitespace. -/
theorem pyStrip_head_space (s : List Nat) :
    ∀ c, (pyStrip s).head? = some c → pyIsSpace c = false := by
  intro c h
  unfold pyStrip trimR at h
  have hsuf : (trimL s).reverse.dropWhile pyIsSpace <:+ (trimL s).reverse :=
    List.dropWhile_suffix pyIsSpace
  have hpre : ((trimL s).reverse.dropWhile pyIsSpace).reverse <+: trimL s := by
    simpa using List.reverse_prefix.mpr hsuf
  obtain ⟨w, hw⟩ := hpre
  have hh : (trimL s).head? = some c := by
    rw [← hw]
    cases hx : ((trimL s).reverse.dropWhile pyIsSpace).reverse with
    | nil => rw [hx] at h; simp at h
    | cons x xs =>
      rw [hx] at h
      simp at h
      simp [h]
  exact head_dropWhile_false pyIsSpace s c hh

/-- The last character of a stripped string is not whitespace. -/
theorem pyStrip_getLast_space (s : List Nat) :
    ∀ c, (pyStrip s).getLast? = some c → pyIsSpace c = false := by
  intro c h
  unfold pyStrip trimR at h
  rw [List.getLast?_reverse] at h
  exact head_dropWhile_false pyIsSpace (trimL s).reverse c h

/-- A string with no whitespace at either end strips to itself. -/
theorem pyStrip_eq_self (v : List Nat)
    (hh : ∀ c, v.head? = some c → pyIsSpace c = false)
    (hl : ∀ c, v.getLast? = some c → pyIsSpace c = false) :
    pyStrip v = v := by
  have htl : trimL v = v := by
    cases hv : v with
    | nil => rfl
    | cons c t =>
      have := hh c (by rw [hv]; rfl)
      unfold trimL
      rw [List.dropWhile_cons, this]
      simp
  have htr : trimR v = v := by
    unfold trimR
    have : v.reverse.dropWhile pyIsSpace = v.reverse := by
      cases hr : v.reverse with
      | nil => rfl
      | cons c t =>
        have hlast : v.getLast? = some c := by
          rw [← List.head?_reverse, hr]
          rfl
        rw [List.dropWhile_cons, hl c hlast]
        simp
    rw [this, List.reverse_reverse]
  unfold pyStrip
  rw [htl, htr]

/-- Stripping is idempotent. -/
theorem pyStrip_pyStrip (s : List Nat) : pyStrip (pyStrip s) = pyStrip s :=
  pyStrip_eq_self (pyStrip s) (pyStrip_head_space s) (pyStrip_getLast_space s)

/-- C9: `_to_proper_case` is idempotent — applying it twice yields
exactly the single-application result, for every input string. -/
theorem toProperCase_idempotent (s : List Nat) :
    toProperCase (toProperCase s) = toProperCase s := by
  by_cases h0 : (s.isEmpty || (pyStrip s).isEmpty) = true
  · have htps : toProperCase s = s := by
      unfold toProperCase
      rw [if_pos h0]
    rw [htps, htps]
  · have htps : toProperCase s = pyTitle (pyStrip s) := by
      unfold toProperCase
      rw [if_neg h0]
    have hu : pyStrip s ≠ [] := by
      intro hcon
      rw [hcon] at h0
      simp at h0
    have hstrip_u : pyStrip (pyStrip s) = pyStrip s := pyStrip_pyStrip s
    have ht_len : (pyTitle (pyStrip s)).length = (pyStrip s).length :=
      titleAux_length false (pyStrip s)
    have ht_ne : pyTitle (pyStrip s) ≠ [] := by
      intro hcon
      rw [hcon] at ht_len
      exact hu (List.length_eq_zero.mp ht_len.symm)
    have ht_head : ∀ c, (pyTitle (pyStrip s)).head? = some c →
        pyIsSpace c = false := by
      intro c h
      cases hup : pyStrip s with
      | nil => exact absurd hup hu
      | cons c₁ t₁ =>
        obtain ⟨c₂, t₂, ht, hsp⟩ := titleAux_cons_space false c₁ t₁
        rw [show pyTitle (pyStrip s) = titleAux false (c₁ :: t₁) by rw [hup]; rfl,
          ht] at h
        simp at h
        rw [← h, hsp]
        exact pyStrip_head_space s c₁ (by rw [hup]; rfl)
    have ht_last : ∀ c, (pyTitle (pyStrip s)).getLast? = some c →
        pyIsSpace c = false := by
      intro c h
      have hl : (pyStrip s).getLast? ≠ none :=
        fun hcon => hu (List.getLast?_eq_none_iff.mp hcon)
      cases hlast : (pyStrip s).getLast? with
      | none => exact absurd hlast hl
      | some c₁ =>
        obtain ⟨c₂, hc₂, hsp⟩ := titleAux_getLast_space (pyStrip s) false c₁ hlast
        rw [show pyTitle (pyStrip s) = titleAux false (pyStrip s) from rfl, hc₂] at h
        injection h with h
        rw [← h, hsp]
        exact pyStrip_getLast_space s c₁ hlast
    have hstrip_t : pyStrip (pyTitle (pyStrip s)) = pyTitle (pyStrip s) :=
      pyStrip_eq_self _ ht_head ht_last
    have htitle_t : pyTitle (pyTitle (pyStrip s)) = pyTitle (pyStrip s) :=
      titleAux_titleAux false (pyStrip s)
    rw [htps]
    unfold toProperCase
    rw [hstrip_t, if_neg (by simp [ht_ne])]
    exact htitle_t

end OpenPlantbookRef
